import Mathlib

/-!
Verification development for the concierge-service backend: the request and
booking state machines, the admin booking-creation and status-update use
cases, the in-memory websocket connection manager, and one iteration of the
chat session loop.  Python exceptions are embedded as explicit error values;
mutation of an entity is embedded as state passing, where a raising method
returns the error together with the unchanged state.  Timestamps carry no
information used by any property proved here and are elided.
-/

set_option maxHeartbeats 1000000

/-- Embedded exception classes of the application. -/
inductive AppError where
  | invalidRequest (msg : String)
  | invalidBooking (msg : String)
  | invalidMessage (msg : String)
  | validationError (msg : String)
  | resourceNotFound (msg : String)
  deriving Repr, DecidableEq

/-- Python `str.strip()`: drop whitespace from both ends.  Defined on the
character list so that it evaluates by kernel reduction. -/
def pyStrip (s : String) : String :=
  ⟨((s.data.dropWhile Char.isWhitespace).reverse.dropWhile Char.isWhitespace).reverse⟩

/-- Python `str.lower()` restricted to ASCII, as `Char.toLower` is. -/
def pyLower (s : String) : String :=
  ⟨s.data.map Char.toLower⟩

/-- Request aggregate (src/domain/request/entities/request.py).  The two
datetime fields are elided. -/
structure Request where
  request_id : Option Nat
  user_id : Nat
  title : String
  category_slug : String
  description : String
  status : String
  vendor_id : Option Nat
  deriving Repr, DecidableEq

def Request.VALID_STATUSES : List String :=
  ["new", "assigned", "in_progress", "fulfilled", "cancelled"]

/-- Factory `Request.create`: raises unless the description is non-empty and
its strip has at least 10 characters; stores stripped title and description,
status `new`, no id. -/
def Request.create (user_id : Nat) (title : String) (category_slug : String)
    (description : String) (vendor_id : Option Nat) : Except AppError Request :=
  if description = "" ∨ (pyStrip description).length < 10 then
    .error (.invalidRequest "Description must be at least 10 characters")
  else
    .ok { request_id := none, user_id := user_id, title := pyStrip title,
          category_slug := category_slug, description := pyStrip description,
          status := "new", vendor_id := vendor_id }

/-- `Request.assign`: raising methods return the error and the state as it was
at the raise, which in the source is always the unmodified state. -/
def Request.assign (r : Request) : Option AppError × Request :=
  if r.status ≠ "new" then
    (some (.invalidRequest "Can only assign new requests"), r)
  else
    (none, { r with status := "assigned" })

def Request.start_progress (r : Request) : Option AppError × Request :=
  if r.status ≠ "assigned" then
    (some (.invalidRequest "Can only start progress on assigned requests"), r)
  else
    (none, { r with status := "in_progress" })

def Request.fulfill (r : Request) : Option AppError × Request :=
  if r.status ≠ "in_progress" then
    (some (.invalidRequest "Can only fulfill requests in progress"), r)
  else
    (none, { r with status := "fulfilled" })

def Request.cancel (r : Request) : Option AppError × Request :=
  if r.status = "fulfilled" ∨ r.status = "cancelled" then
    (some (.invalidRequest "Cannot cancel fulfilled or already cancelled requests"), r)
  else
    (none, { r with status := "cancelled" })

/-- Booking aggregate (src/domain/booking/entities/booking.py); `start_at` is
optional at runtime because callers may pass None. -/
structure Booking where
  booking_id : Option Nat
  request_id : Nat
  user_id : Nat
  vendor_id : Option Nat
  start_at : Option Nat
  end_at : Option Nat
  status : String
  notes : Option String
  created_by : Option Nat
  deriving Repr, DecidableEq

def Booking.VALID_STATUSES : List String := ["upcoming", "completed", "cancelled"]

/-- Factory `Booking.create`: raises when `start_at` is None, otherwise builds
an `upcoming` booking with no id. -/
def Booking.create (request_id : Nat) (user_id : Nat) (vendor_id : Option Nat)
    (start_at : Option Nat) (end_at : Option Nat) (created_by : Option Nat)
    (notes : Option String) : Except AppError Booking :=
  match start_at with
  | none => .error (.invalidBooking "start_at is required for a booking")
  | some t =>
      .ok { booking_id := none, request_id := request_id, user_id := user_id,
            vendor_id := vendor_id, start_at := some t, end_at := end_at,
            status := "upcoming", notes := notes, created_by := created_by }

def Booking.complete (b : Booking) : Option AppError × Booking :=
  if b.status ≠ "upcoming" then
    (some (.invalidBooking "Only upcoming bookings can be completed"), b)
  else
    (none, { b with status := "completed" })

def Booking.cancel (b : Booking) : Option AppError × Booking :=
  if b.status = "completed" then
    (some (.invalidBooking "Cannot cancel a completed booking"), b)
  else
    (none, { b with status := "cancelled" })

/-- Booking-creation input DTO. -/
structure BookingCreateDTO where
  request_id : Nat
  vendor_id : Option Nat
  start_at : Option Nat
  end_at : Option Nat
  notes : Option String
  deriving Repr, DecidableEq

/-- Python `a or b` on two optional integers: both None and 0 are falsy. -/
def pyOrOpt (a b : Option Nat) : Option Nat :=
  match a with
  | some v => if v = 0 then b else some v
  | none => b

/-- A notification call wrapped in try/except: the outcome is swallowed and
observed only as a log entry. -/
def tryLog (outcome : Except String Unit) : List String :=
  match outcome with
  | .ok _ => []
  | .error e => [e]

/-- The status dispatch at the top of `CreateBookingUseCase.execute`: bring
the request to in_progress, or raise. -/
def confirmRequestStep (request : Request) : Except AppError Request :=
  if request.status = "in_progress" then .ok request
  else if request.status = "assigned" then
    match request.start_progress with
    | (some e, _) => .error e
    | (none, r) => .ok r
  else if request.status = "new" then
    match request.assign with
    | (some e, _) => .error e
    | (none, r1) =>
      match r1.start_progress with
      | (some e, _) => .error e
      | (none, r2) => .ok r2
  else
    .error (.validationError
      ("Cannot confirm booking for request in status " ++ request.status))

/-- `CreateBookingUseCase.execute`: the repository lookup result is passed in
as `found`; `next_id` is the id the save assigns; the two notification calls
are passed as their outcomes.  Returns the primary outcome (updated request
and saved booking, or the raised error) together with the swallowed
notification-error log. -/
def CreateBookingUseCase.execute (found : Option Request) (dto : BookingCreateDTO)
    (admin_id : Nat) (next_id : Nat)
    (notifyRequestUpdated notifyBookingConfirmed : Except String Unit) :
    Except AppError (Request × Booking) × List String :=
  match found with
  | none => (.error (.resourceNotFound "Request not found"), [])
  | some request =>
    match confirmRequestStep request with
    | .error e => (.error e, [])
    | .ok request1 =>
      let log1 := tryLog notifyRequestUpdated
      match Booking.create dto.request_id request.user_id
          (pyOrOpt dto.vendor_id request.vendor_id) dto.start_at dto.end_at
          (some admin_id) dto.notes with
      | .error e => (.error e, log1)
      | .ok booking =>
        let saved := { booking with booking_id := some next_id }
        let log2 := tryLog notifyBookingConfirmed
        (.ok (request1, saved), log1 ++ log2)

/-- The per-target dispatch inside `UpdateBookingStatusUseCase.execute`. -/
def updateStatusStep (booking : Booking) (normalized : String) :
    Except AppError Booking :=
  if normalized = "completed" then
    match booking.complete with
    | (some e, _) => .error e
    | (none, b) => .ok b
  else if normalized = "cancelled" then
    match booking.cancel with
    | (some e, _) => .error e
    | (none, b) => .ok b
  else if normalized = "upcoming" then
    if booking.status = "completed" then
      .error (.validationError "Cannot change completed booking back to upcoming")
    else .ok { booking with status := "upcoming" }
  else .ok booking

/-- `UpdateBookingStatusUseCase.execute`: boundary validation of the target
status, then the corresponding entity transition, then a swallowed
notification. -/
def UpdateBookingStatusUseCase.execute (found : Option Booking) (new_status : String)
    (admin_id : Nat) (notifyOutcome : Except String Unit) :
    Except AppError Booking × List String :=
  let normalized := pyStrip (pyLower new_status)
  if ¬ normalized ∈ Booking.VALID_STATUSES then
    (.error (.validationError ("Invalid status " ++ new_status)), [])
  else
    match found with
    | none => (.error (.resourceNotFound "Booking not found"), [])
    | some booking =>
      let old_status := booking.status
      match updateStatusStep booking normalized with
      | .error e => (.error e, [])
      | .ok updated =>
        let log := if old_status ≠ normalized then tryLog notifyOutcome else []
        (.ok updated, log)

/-- The connection registry: a Python dict from conversation id to the room
list, embedded as an insertion-ordered association list with unique keys. -/
abbrev Registry := List (Nat × List Nat)

/-- Dict read: the entry with the key (the first, and for the unique-key
registries the manager builds, the only one). -/
def dictGet : Registry → Nat → Option (List Nat)
  | [], _ => none
  | p :: rest, k => if p.1 = k then some p.2 else dictGet rest k

/-- Dict write `d[k] = v`: replace the entry in place when the key is
present, else append at the end, preserving insertion order. -/
def dictSet : Registry → Nat → List Nat → Registry
  | [], k, v => [(k, v)]
  | p :: rest, k, v => if p.1 = k then (k, v) :: rest else p :: dictSet rest k v

/-- Dict delete `del d[k]`. -/
def dictDel : Registry → Nat → Registry
  | [], _ => []
  | p :: rest, k => if p.1 = k then dictDel rest k else p :: dictDel rest k

/-- `ConnectionManager.connect` (registry effect; the transport accept is
elided): create the room when absent, then append the connection. -/
def ConnectionManager.connect (reg : Registry) (ws : Nat) (cid : Nat) : Registry :=
  let reg1 := if dictGet reg cid = none then dictSet reg cid [] else reg
  dictSet reg1 cid (((dictGet reg1 cid).getD []) ++ [ws])

/-- `ConnectionManager.disconnect`: remove the first occurrence of the
connection when present, then delete the room if it became empty. -/
def ConnectionManager.disconnect (reg : Registry) (ws : Nat) (cid : Nat) : Registry :=
  match dictGet reg cid with
  | none => reg
  | some room =>
    let room1 := room.erase ws
    if room1 = [] then dictDel reg cid else dictSet reg cid room1

/-- `ConnectionManager.broadcast`: `sendOk c` tells whether `send_json` to
connection `c` succeeds.  Returns the connections attempted in order, the
connections actually delivered to, and the registry after the dead
connections are disconnected. -/
def ConnectionManager.broadcast (reg : Registry) (cid : Nat) (sendOk : Nat → Bool) :
    List Nat × List Nat × Registry :=
  match dictGet reg cid with
  | none => ([], [], reg)
  | some room =>
    let disconnected := room.filter (fun c => !(sendOk c))
    (room, room.filter sendOk,
      disconnected.foldl (fun r c => ConnectionManager.disconnect r c cid) reg)

/-- One registry operation of the connection manager. -/
inductive CMOp where
  | connect (ws : Nat) (cid : Nat)
  | disconnect (ws : Nat) (cid : Nat)
  | broadcast (cid : Nat) (sendOk : Nat → Bool)

def applyCMOp (reg : Registry) : CMOp → Registry
  | .connect ws cid => ConnectionManager.connect reg ws cid
  | .disconnect ws cid => ConnectionManager.disconnect reg ws cid
  | .broadcast cid sendOk => (ConnectionManager.broadcast reg cid sendOk).2.2

def applyCMOps (reg : Registry) (ops : List CMOp) : Registry :=
  ops.foldl applyCMOp reg

/-- Registry well-formedness: keys are unique and no room is empty. -/
def RegistryWF (reg : Registry) : Prop :=
  (reg.map Prod.fst).Nodup ∧ ∀ p ∈ reg, p.2 ≠ []

/-- Message value object (src/domain/conversation/entities/conversation.py);
`created_at` is elided. -/
structure Msg where
  message_id : Option Nat
  conversation_id : Nat
  sender_id : Nat
  sender_type : String
  content : String
  deriving Repr, DecidableEq

def Msg.VALID_SENDER_TYPES : List String := ["user", "admin"]

/-- Factory `Message.create`: validates the sender type and that the content
is non-empty after stripping; stores the stripped content. -/
def Msg.create (conversation_id : Nat) (sender_id : Nat) (sender_type : String)
    (content : String) : Except AppError Msg :=
  if ¬ sender_type ∈ Msg.VALID_SENDER_TYPES then
    .error (.invalidMessage ("Invalid sender type " ++ sender_type))
  else if content = "" ∨ (pyStrip content).length = 0 then
    .error (.invalidMessage "Message content cannot be empty")
  else
    .ok { message_id := none, conversation_id := conversation_id,
          sender_id := sender_id, sender_type := sender_type,
          content := pyStrip content }

/-- `ConversationRepository.add_message`: persists the message, assigning the
next store id. -/
def addMessage (store : List Msg) (m : Msg) : List Msg × Msg :=
  let saved := { m with message_id := some (store.length + 1) }
  (store ++ [saved], saved)

/-- Outbound frames of the chat protocol (payload fields that are claims-
irrelevant constants are elided). -/
inductive Frame where
  | message (id : Option Nat) (conversation_id : Nat) (sender_id : Nat)
      (sender_type : String) (content : String)
  | error (msg : String)
  deriving Repr, DecidableEq

/-- Observable delivery events of one loop iteration. -/
inductive ChatEvent where
  | personal (receiver : Nat) (frame : Frame)
  | broadcastDelivery (recipients : List Nat) (frame : Frame)
  deriving Repr, DecidableEq

/-- One iteration of the `websocket_chat` receive loop on an inbound data
frame whose `content` field is `content?`.  Returns the message store, the
registry, the delivery events of this iteration, and the swallowed
notification-error log.  Returning at all means the loop continues; teardown
(which would remove `ws` from the registry) is not part of a normal
iteration. -/
def chatIteration (store : List Msg) (reg : Registry) (ws : Nat) (cid : Nat)
    (user_id : Nat) (is_admin : Bool) (content? : Option String)
    (sendOk : Nat → Bool) (notifyOutcome : Except String Unit) :
    List Msg × Registry × List ChatEvent × List String :=
  let sender_type := if is_admin then "admin" else "user"
  let content := pyStrip (content?.getD "")
  if content = "" then
    (store, reg, [.personal ws (.error "Message content cannot be empty")], [])
  else
    match Msg.create cid user_id sender_type content with
    | .error _ =>
        (store, reg, [.personal ws (.error "Failed to process message")], [])
    | .ok m =>
      let persisted := addMessage store m
      let saved := persisted.2
      let log := if is_admin then tryLog notifyOutcome else []
      let br := ConnectionManager.broadcast reg cid sendOk
      (persisted.1, br.2.2,
        [.broadcastDelivery br.2.1
          (.message saved.message_id cid saved.sender_id saved.sender_type
            saved.content)], log)

/-- The message one loop iteration persists for a frame with non-empty
stripped content: the store-assigned id, this conversation, the sender, the
effective sender type, and the stripped content. -/
def savedMsg (store : List Msg) (cid uid : Nat) (adm : Bool)
    (content? : Option String) : Msg :=
  { message_id := some (store.length + 1), conversation_id := cid,
    sender_id := uid, sender_type := if adm then "admin" else "user",
    content := pyStrip (content?.getD "") }

/-- A concrete request used to instantiate hypothesis-bearing theorems. -/
def sampleRequest (s : String) : Request :=
  { request_id := some 1, user_id := 2, title := "Dinner", category_slug := "dining",
    description := "a long enough description", status := s, vendor_id := some 7 }

/-- A concrete booking used to instantiate hypothesis-bearing theorems. -/
def sampleBooking (s : String) : Booking :=
  { booking_id := some 3, request_id := 1, user_id := 2, vendor_id := some 7,
    start_at := some 100, end_at := none, status := s, notes := none,
    created_by := some 9 }

/-- A concrete booking-creation DTO for witnesses. -/
def sampleDTO : BookingCreateDTO :=
  { request_id := 1, vendor_id := none, start_at := some 100, end_at := none,
    notes := none }

/-- Claim C1: each named request transition succeeds exactly when its
precondition status holds and otherwise fails with an invalid-state error
leaving the request unchanged: assign requires status new and sets assigned;
start_progress requires assigned and sets in_progress; fulfill requires
in_progress and sets fulfilled; cancel requires a status among new, assigned,
in_progress and sets cancelled, failing from fulfilled or cancelled. -/
theorem request_transitions_spec (r : Request)
    (hv : r.status ∈ Request.VALID_STATUSES) :
    (((r.assign).1 = none ↔ r.status = "new") ∧
      (r.status = "new" → r.assign = (none, { r with status := "assigned" })) ∧
      (r.status ≠ "new" →
        r.assign = (some (.invalidRequest "Can only assign new requests"), r))) ∧
    (((r.start_progress).1 = none ↔ r.status = "assigned") ∧
      (r.status = "assigned" →
        r.start_progress = (none, { r with status := "in_progress" })) ∧
      (r.status ≠ "assigned" →
        r.start_progress =
          (some (.invalidRequest "Can only start progress on assigned requests"), r))) ∧
    (((r.fulfill).1 = none ↔ r.status = "in_progress") ∧
      (r.status = "in_progress" →
        r.fulfill = (none, { r with status := "fulfilled" })) ∧
      (r.status ≠ "in_progress" →
        r.fulfill = (some (.invalidRequest "Can only fulfill requests in progress"), r))) ∧
    (((r.cancel).1 = none ↔
        (r.status = "new" ∨ r.status = "assigned" ∨ r.status = "in_progress")) ∧
      ((r.status = "new" ∨ r.status = "assigned" ∨ r.status = "in_progress") →
        r.cancel = (none, { r with status := "cancelled" })) ∧
      ((r.status = "fulfilled" ∨ r.status = "cancelled") →
        r.cancel =
          (some (.invalidRequest "Cannot cancel fulfilled or already cancelled requests"), r))) := by
  simp only [Request.VALID_STATUSES, List.mem_cons, List.not_mem_nil, or_false] at hv
  rcases hv with h | h | h | h | h <;>
    simp [Request.assign, Request.start_progress, Request.fulfill, Request.cancel, h]

/-- Witness for `request_transitions_spec` at a concrete new request. -/
theorem request_transitions_spec_witness :
    (sampleRequest "new").status ∈ Request.VALID_STATUSES ∧
    (sampleRequest "new").assign = (none, { sampleRequest "new" with status := "assigned" }) :=
  ⟨by decide,
    (request_transitions_spec (sampleRequest "new") (by decide)).1.2.1 rfl⟩

/-- Claim C3: complete succeeds exactly from upcoming and sets completed;
cancel fails exactly from completed and otherwise sets cancelled (so
cancelling an already-cancelled booking succeeds); failed transitions leave
the booking unchanged; and no operation, including the admin status-update
use case with any target string, moves a completed booking to another
status. -/
theorem booking_transitions_spec (b : Booking) :
    (((b.complete).1 = none ↔ b.status = "upcoming") ∧
      (b.status = "upcoming" → b.complete = (none, { b with status := "completed" })) ∧
      (b.status ≠ "upcoming" →
        b.complete = (some (.invalidBooking "Only upcoming bookings can be completed"), b))) ∧
    (((b.cancel).1.isSome ↔ b.status = "completed") ∧
      (b.status ≠ "completed" → b.cancel = (none, { b with status := "cancelled" })) ∧
      (b.status = "completed" →
        b.cancel = (some (.invalidBooking "Cannot cancel a completed booking"), b))) ∧
    (b.status = "completed" →
      (b.complete).2 = b ∧ (b.cancel).2 = b ∧
      ∀ s a n, ∃ e, (UpdateBookingStatusUseCase.execute (some b) s a n).1 = Except.error e) := by
  refine ⟨?_, ?_, ?_⟩
  · by_cases h : b.status = "upcoming" <;> simp [Booking.complete, h]
  · by_cases h : b.status = "completed" <;> simp [Booking.cancel, h]
  · intro hb
    refine ⟨by simp [Booking.complete, hb], by simp [Booking.cancel, hb], ?_⟩
    intro s a n
    unfold UpdateBookingStatusUseCase.execute
    by_cases hmem : pyStrip (pyLower s) ∈ Booking.VALID_STATUSES
    · simp only [Booking.VALID_STATUSES, List.mem_cons, List.not_mem_nil, or_false] at hmem
      rcases hmem with h | h | h <;>
        simp [h, updateStatusStep, Booking.complete, Booking.cancel, hb,
          Booking.VALID_STATUSES]
    · simp [hmem]

/-- Witness for `booking_transitions_spec` at a concrete completed booking. -/
theorem booking_transitions_spec_witness :
    (sampleBooking "completed").status = "completed" ∧
    ∃ e, (UpdateBookingStatusUseCase.execute (some (sampleBooking "completed"))
        "upcoming" 9 (Except.ok ())).1 = Except.error e :=
  ⟨rfl, ((booking_transitions_spec (sampleBooking "completed")).2.2 rfl).2.2
      "upcoming" 9 (Except.ok ())⟩

/-- Claim C10: Request.create raises an invalid-request error when the
description is empty or its trim is shorter than 10 characters, producing no
request; otherwise it returns a request with status new, stripped title and
description, and no id assigned. -/
theorem request_create_spec (user_id : Nat) (title : String) (category_slug : String)
    (description : String) (vendor_id : Option Nat) :
    ((description = "" ∨ (pyStrip description).length < 10) →
      Request.create user_id title category_slug description vendor_id =
        .error (.invalidRequest "Description must be at least 10 characters")) ∧
    (¬ (description = "" ∨ (pyStrip description).length < 10) →
      Request.create user_id title category_slug description vendor_id =
        .ok { request_id := none, user_id := user_id, title := pyStrip title,
              category_slug := category_slug, description := pyStrip description,
              status := "new", vendor_id := vendor_id }) := by
  constructor <;> intro h <;> simp [Request.create, h]

/-- Witness for `request_create_spec` at an empty description. -/
theorem request_create_spec_witness :
    ("" = "" ∨ (pyStrip "").length < 10) ∧
    Request.create 2 "Dinner" "dining" "" (some 7) =
      .error (.invalidRequest "Description must be at least 10 characters") :=
  ⟨Or.inl rfl, (request_create_spec 2 "Dinner" "dining" "" (some 7)).1 (Or.inl rfl)⟩

/-- Replacing the status of a request by its current value is the identity. -/
theorem Request.eta_status (r : Request) (s : String) (h : r.status = s) :
    ({ r with status := s } : Request) = r := by
  cases r
  simp_all

/-- Claim C8: in the admin status update, resetting a booking to upcoming
fails with a validation error exactly when the current status is completed;
from cancelled (or upcoming) the reset succeeds. -/
theorem booking_reset_upcoming_spec (b : Booking) (a : Nat) (n : Except String Unit) :
    (b.status = "completed" →
      (UpdateBookingStatusUseCase.execute (some b) "upcoming" a n).1 =
        Except.error (.validationError "Cannot change completed booking back to upcoming")) ∧
    (b.status ≠ "completed" →
      (UpdateBookingStatusUseCase.execute (some b) "upcoming" a n).1 =
        Except.ok { b with status := "upcoming" }) := by
  have hn : pyStrip (pyLower "upcoming") = "upcoming" := by decide
  constructor <;> intro h <;>
    simp [UpdateBookingStatusUseCase.execute, hn, updateStatusStep,
      Booking.VALID_STATUSES, h]

/-- Witness for `booking_reset_upcoming_spec` at a concrete cancelled
booking. -/
theorem booking_reset_upcoming_spec_witness :
    (sampleBooking "cancelled").status ≠ "completed" ∧
    (UpdateBookingStatusUseCase.execute (some (sampleBooking "cancelled"))
        "upcoming" 9 (Except.ok ())).1 =
      Except.ok { sampleBooking "cancelled" with status := "upcoming" } :=
  ⟨by decide,
    (booking_reset_upcoming_spec (sampleBooking "cancelled") 9 (Except.ok ())).2
      (by decide)⟩

/-- Claim C2: the admin booking-creation flow drives the request to
in_progress (new via assign then start_progress, assigned via start_progress,
in_progress unchanged); any other status fails with a validation error and no
booking is produced; on success exactly one booking is returned, upcoming,
referencing the request user id and the caller vendor id with fallback to the
request vendor id. -/
theorem create_booking_flow_spec (r : Request) (dto : BookingCreateDTO)
    (a i : Nat) (n1 n2 : Except String Unit) :
    (¬ (r.status = "new" ∨ r.status = "assigned" ∨ r.status = "in_progress") →
      (CreateBookingUseCase.execute (some r) dto a i n1 n2).1 =
        Except.error (.validationError
          ("Cannot confirm booking for request in status " ++ r.status))) ∧
    ((r.status = "new" ∨ r.status = "assigned" ∨ r.status = "in_progress") →
      ∀ t, dto.start_at = some t →
        (CreateBookingUseCase.execute (some r) dto a i n1 n2).1 =
          Except.ok ({ r with status := "in_progress" },
            { booking_id := some i, request_id := dto.request_id,
              user_id := r.user_id,
              vendor_id := pyOrOpt dto.vendor_id r.vendor_id,
              start_at := some t, end_at := dto.end_at, status := "upcoming",
              notes := dto.notes, created_by := some a }) ∧
        (dto.vendor_id = none → pyOrOpt dto.vendor_id r.vendor_id = r.vendor_id) ∧
        (∀ v, v ≠ 0 → dto.vendor_id = some v →
          pyOrOpt dto.vendor_id r.vendor_id = some v)) := by
  constructor
  · intro h
    push_neg at h
    obtain ⟨h1, h2, h3⟩ := h
    simp [CreateBookingUseCase.execute, confirmRequestStep, h1, h2, h3]
  · intro h t hst
    have hstep : confirmRequestStep r = .ok { r with status := "in_progress" } := by
      rcases h with h | h | h
      · simp [confirmRequestStep, Request.assign, Request.start_progress, h]
      · simp [confirmRequestStep, Request.start_progress, h]
      · rw [Request.eta_status r "in_progress" h]
        simp [confirmRequestStep, h]
    refine ⟨?_, ?_, ?_⟩
    · simp [CreateBookingUseCase.execute, hstep, Booking.create, hst]
    · intro hv
      simp [pyOrOpt, hv]
    · intro v hv0 hsv
      simp [pyOrOpt, hsv, hv0]

/-- Witness for `create_booking_flow_spec` at a concrete new request. -/
theorem create_booking_flow_spec_witness :
    ((sampleRequest "new").status = "new" ∨ (sampleRequest "new").status = "assigned" ∨
      (sampleRequest "new").status = "in_progress") ∧
    sampleDTO.start_at = some 100 ∧
    (CreateBookingUseCase.execute (some (sampleRequest "new")) sampleDTO 9 42
        (Except.ok ()) (Except.ok ())).1 =
      Except.ok ({ sampleRequest "new" with status := "in_progress" },
        { booking_id := some 42, request_id := 1, user_id := 2,
          vendor_id := some 7, start_at := some 100, end_at := none,
          status := "upcoming", notes := none, created_by := some 9 }) :=
  ⟨Or.inl rfl, rfl,
    ((create_booking_flow_spec (sampleRequest "new") sampleDTO 9 42
        (Except.ok ()) (Except.ok ())).2 (Or.inl rfl) 100 rfl).1⟩

/-- Claim C9: a notification failure at any of the three dispatch sites
(booking creation, booking status update, inbound chat message) never changes
the primary outcome: the result with a failing notification equals the result
with a succeeding one, differing at most in the swallowed error log. -/
theorem notification_failures_isolated :
    (∀ found dto a i n1 n1' n2 n2',
      (CreateBookingUseCase.execute found dto a i n1 n2).1 =
        (CreateBookingUseCase.execute found dto a i n1' n2').1) ∧
    (∀ found s a n n',
      (UpdateBookingStatusUseCase.execute found s a n).1 =
        (UpdateBookingStatusUseCase.execute found s a n').1) ∧
    (∀ store reg ws cid uid adm c sendOk n n',
      (chatIteration store reg ws cid uid adm c sendOk n).1 =
          (chatIteration store reg ws cid uid adm c sendOk n').1 ∧
        (chatIteration store reg ws cid uid adm c sendOk n).2.1 =
          (chatIteration store reg ws cid uid adm c sendOk n').2.1 ∧
        (chatIteration store reg ws cid uid adm c sendOk n).2.2.1 =
          (chatIteration store reg ws cid uid adm c sendOk n').2.2.1) := by
  refine ⟨?_, ?_, ?_⟩
  · intro found dto a i n1 n1' n2 n2'
    cases found with
    | none => rfl
    | some r =>
      cases hs : confirmRequestStep r with
      | error e => simp [CreateBookingUseCase.execute, hs]
      | ok r1 =>
        cases hB : Booking.create dto.request_id r.user_id
            (pyOrOpt dto.vendor_id r.vendor_id) dto.start_at dto.end_at
            (some a) dto.notes <;>
          simp [CreateBookingUseCase.execute, hs, hB]
  · intro found s a n n'
    by_cases hmem : pyStrip (pyLower s) ∈ Booking.VALID_STATUSES
    · cases found with
      | none => simp [UpdateBookingStatusUseCase.execute, hmem]
      | some b =>
        cases hstep : updateStatusStep b (pyStrip (pyLower s)) <;>
          simp [UpdateBookingStatusUseCase.execute, hmem, hstep]
    · simp [UpdateBookingStatusUseCase.execute, hmem]
  · intro store reg ws cid uid adm c sendOk n n'
    by_cases hc : pyStrip (c.getD "") = ""
    · simp [chatIteration, hc]
    · cases hM : Msg.create cid uid (if adm then "admin" else "user")
          (pyStrip (c.getD "")) <;>
        simp [chatIteration, hc, hM]

/-- Reading the key just written. -/
theorem dictGet_dictSet_self (reg : Registry) (k : Nat) (v : List Nat) :
    dictGet (dictSet reg k v) k = some v := by
  induction reg with
  | nil => simp [dictGet, dictSet]
  | cons p rest ih =>
    by_cases h : p.1 = k
    · simp [dictGet, dictSet, h]
    · simp [dictGet, dictSet, h, ih]

/-- Writing one key does not change another. -/
theorem dictGet_dictSet_ne (reg : Registry) (k j : Nat) (v : List Nat) (h : k ≠ j) :
    dictGet (dictSet reg k v) j = dictGet reg j := by
  induction reg with
  | nil => simp [dictGet, dictSet, h]
  | cons p rest ih =>
    by_cases hp : p.1 = k
    · simp [dictGet, dictSet, hp, h]
    · by_cases hj : p.1 = j <;> simp [dictGet, dictSet, hp, hj, ih, Ne.symm h]

/-- Reading a deleted key. -/
theorem dictGet_dictDel_self (reg : Registry) (k : Nat) :
    dictGet (dictDel reg k) k = none := by
  induction reg with
  | nil => simp [dictGet, dictDel]
  | cons p rest ih =>
    by_cases h : p.1 = k <;> simp [dictGet, dictDel, h, ih]

/-- Overwriting a key twice equals writing it once. -/
theorem dictSet_dictSet_self (reg : Registry) (k : Nat) (v w : List Nat) :
    dictSet (dictSet reg k v) k w = dictSet reg k w := by
  induction reg with
  | nil => simp [dictSet]
  | cons p rest ih =>
    by_cases h : p.1 = k <;> simp [dictSet, h, ih]

/-- A successful read exhibits a registry entry. -/
theorem dictGet_mem (reg : Registry) (k : Nat) (room : List Nat)
    (h : dictGet reg k = some room) : (k, room) ∈ reg := by
  induction reg with
  | nil => simp [dictGet] at h
  | cons p rest ih =>
    obtain ⟨a, b⟩ := p
    by_cases hp : a = k
    · subst hp
      simp [dictGet] at h
      simp [h]
    · simp [dictGet, hp] at h
      simp [ih h]

/-- Writing back the value just read is the identity. -/
theorem dictSet_self (reg : Registry) (k : Nat) (room : List Nat)
    (h : dictGet reg k = some room) : dictSet reg k room = reg := by
  induction reg with
  | nil => simp [dictGet] at h
  | cons p rest ih =>
    obtain ⟨a, b⟩ := p
    by_cases hp : a = k
    · subst hp
      simp [dictGet] at h
      simp [dictSet, h]
    · simp [dictGet, hp] at h
      simp [dictSet, hp, ih h]

/-- Every entry of an updated dict is the written pair or an original entry. -/
theorem mem_dictSet (reg : Registry) (k : Nat) (v : List Nat) (p : Nat × List Nat)
    (h : p ∈ dictSet reg k v) : p = (k, v) ∨ p ∈ reg := by
  induction reg with
  | nil => simpa [dictSet] using h
  | cons q rest ih =>
    by_cases hq : q.1 = k
    · simp only [dictSet, hq, if_pos, List.mem_cons] at h
      rcases h with h | h
      · exact Or.inl h
      · exact Or.inr (List.mem_cons_of_mem q h)
    · simp only [dictSet, if_neg hq, List.mem_cons] at h
      rcases h with h | h
      · exact Or.inr (h ▸ List.mem_cons_self q rest)
      · rcases ih h with h1 | h1
        · exact Or.inl h1
        · exact Or.inr (List.mem_cons_of_mem q h1)

/-- Keys of an updated dict come from the original keys or are the written
key. -/
theorem keys_dictSet_mem (reg : Registry) (k : Nat) (v : List Nat) (x : Nat)
    (h : x ∈ (dictSet reg k v).map Prod.fst) : x ∈ reg.map Prod.fst ∨ x = k := by
  simp only [List.mem_map] at h
  obtain ⟨p, hp, hx⟩ := h
  rcases mem_dictSet reg k v p hp with h1 | h1
  · right
    rw [← hx, h1]
  · left
    exact List.mem_map.mpr ⟨p, h1, hx⟩

/-- A dict update preserves key uniqueness. -/
theorem keys_nodup_dictSet (reg : Registry) (k : Nat) (v : List Nat)
    (h : (reg.map Prod.fst).Nodup) : ((dictSet reg k v).map Prod.fst).Nodup := by
  induction reg with
  | nil => simp [dictSet]
  | cons p rest ih =>
    simp only [List.map_cons, List.nodup_cons] at h
    obtain ⟨ha, hrest⟩ := h
    by_cases hq : p.1 = k
    · simp only [dictSet, if_pos hq, List.map_cons, List.nodup_cons]
      exact ⟨hq ▸ ha, hrest⟩
    · simp only [dictSet, if_neg hq, List.map_cons, List.nodup_cons]
      refine ⟨?_, ih hrest⟩
      intro hmem
      rcases keys_dictSet_mem rest k v p.1 hmem with h1 | h1
      · exact ha h1
      · exact hq h1

/-- A dict update with a nonempty room preserves registry well-formedness. -/
theorem WF_dictSet (reg : Registry) (k : Nat) (v : List Nat)
    (h : RegistryWF reg) (hv : v ≠ []) : RegistryWF (dictSet reg k v) := by
  obtain ⟨h1, h2⟩ := h
  refine ⟨keys_nodup_dictSet reg k v h1, ?_⟩
  intro p hp
  rcases mem_dictSet reg k v p hp with hh | hh
  · rw [hh]
    exact hv
  · exact h2 p hh

/-- Deletion yields a sublist of the registry. -/
theorem dictDel_sublist (reg : Registry) (k : Nat) : (dictDel reg k).Sublist reg := by
  induction reg with
  | nil => simp [dictDel]
  | cons p rest ih =>
    by_cases h : p.1 = k
    · simpa only [dictDel, if_pos h] using ih.cons p
    · simpa only [dictDel, if_neg h] using ih.cons₂ p

/-- Deletion preserves registry well-formedness. -/
theorem WF_dictDel (reg : Registry) (k : Nat) (h : RegistryWF reg) :
    RegistryWF (dictDel reg k) := by
  obtain ⟨h1, h2⟩ := h
  refine ⟨List.Nodup.sublist ((dictDel_sublist reg k).map Prod.fst) h1, ?_⟩
  intro p hp
  exact h2 p ((dictDel_sublist reg k).subset hp)

/-- Normal form of connect: append the connection to the room under the
conversation key. -/
theorem connect_eq (reg : Registry) (ws cid : Nat) :
    ConnectionManager.connect reg ws cid =
      dictSet reg cid (((dictGet reg cid).getD []) ++ [ws]) := by
  unfold ConnectionManager.connect
  cases h : dictGet reg cid with
  | none => simp [h, dictGet_dictSet_self, dictSet_dictSet_self]
  | some room => simp [h]

/-- connect preserves registry well-formedness. -/
theorem WF_connect (reg : Registry) (ws cid : Nat) (h : RegistryWF reg) :
    RegistryWF (ConnectionManager.connect reg ws cid) := by
  rw [connect_eq]
  exact WF_dictSet _ _ _ h (by simp)

/-- disconnect preserves registry well-formedness. -/
theorem WF_disconnect (reg : Registry) (ws cid : Nat) (h : RegistryWF reg) :
    RegistryWF (ConnectionManager.disconnect reg ws cid) := by
  unfold ConnectionManager.disconnect
  cases hg : dictGet reg cid with
  | none => exact h
  | some room =>
    by_cases he : room.erase ws = []
    · simpa [he] using WF_dictDel reg cid h
    · simpa [he] using WF_dictSet reg cid (room.erase ws) h he

/-- A fold of disconnects preserves registry well-formedness. -/
theorem WF_fold_disconnect (cid : Nat) (ds : List Nat) :
    ∀ reg, RegistryWF reg →
      RegistryWF (ds.foldl (fun r c => ConnectionManager.disconnect r c cid) reg) := by
  induction ds with
  | nil => intro reg h; exact h
  | cons d ds ih =>
    intro reg h
    exact ih _ (WF_disconnect reg d cid h)

/-- broadcast preserves registry well-formedness. -/
theorem WF_broadcast (reg : Registry) (cid : Nat) (sendOk : Nat → Bool)
    (h : RegistryWF reg) :
    RegistryWF (ConnectionManager.broadcast reg cid sendOk).2.2 := by
  unfold ConnectionManager.broadcast
  cases hg : dictGet reg cid with
  | none => exact h
  | some room => exact WF_fold_disconnect cid _ reg h

/-- Every connection-manager operation preserves well-formedness. -/
theorem WF_applyCMOp (reg : Registry) (op : CMOp) (h : RegistryWF reg) :
    RegistryWF (applyCMOp reg op) := by
  cases op with
  | connect ws cid => exact WF_connect reg ws cid h
  | disconnect ws cid => exact WF_disconnect reg ws cid h
  | broadcast cid sendOk => exact WF_broadcast reg cid sendOk h

/-- Every registry reachable from the empty registry is well-formed. -/
theorem WF_applyCMOps (ops : List CMOp) : RegistryWF (applyCMOps [] ops) := by
  have hstep : ∀ (l : List CMOp) (reg : Registry), RegistryWF reg →
      RegistryWF (applyCMOps reg l) := by
    intro l
    induction l with
    | nil => intro reg h; exact h
    | cons op l ih =>
      intro reg h
      exact ih _ (WF_applyCMOp reg op h)
  exact hstep ops [] ⟨List.nodup_nil, by simp⟩

/-- Disconnecting a connection that is not in the room leaves the registry
unchanged (for well-formed registries). -/
theorem disconnect_absent_noop (reg : Registry) (ws cid : Nat) (h : RegistryWF reg)
    (hws : ws ∉ ((dictGet reg cid).getD [])) :
    ConnectionManager.disconnect reg ws cid = reg := by
  unfold ConnectionManager.disconnect
  cases hg : dictGet reg cid with
  | none => rfl
  | some room =>
    rw [hg] at hws
    simp only [Option.getD_some] at hws
    have hroom : room ≠ [] := h.2 (cid, room) (dictGet_mem reg cid room hg)
    simp only [List.erase_of_not_mem hws, if_neg hroom]
    exact dictSet_self reg cid room hg

/-- After double registration has been removed, disconnecting twice equals
disconnecting once whenever the connection occurs at most once in the room. -/
theorem disconnect_twice_eq (reg : Registry) (ws cid : Nat) (h : RegistryWF reg)
    (hcount : ((dictGet reg cid).getD []).count ws ≤ 1) :
    ConnectionManager.disconnect (ConnectionManager.disconnect reg ws cid) ws cid =
      ConnectionManager.disconnect reg ws cid := by
  cases hg : dictGet reg cid with
  | none =>
    have h0 : ConnectionManager.disconnect reg ws cid = reg := by
      unfold ConnectionManager.disconnect
      rw [hg]
    rw [h0, h0]
  | some room =>
    rw [hg] at hcount
    simp only [Option.getD_some] at hcount
    by_cases hmem : ws ∈ room
    · have hnotin : ws ∉ room.erase ws := by
        intro hc
        have h1 : 0 < (room.erase ws).count ws := List.count_pos_iff.mpr hc
        have h2 : (room.erase ws).count ws = room.count ws - 1 :=
          List.count_erase_self ws room
        omega
      by_cases he : room.erase ws = []
      · have h1 : ConnectionManager.disconnect reg ws cid = dictDel reg cid := by
          unfold ConnectionManager.disconnect
          rw [hg]
          simp [he]
        rw [h1]
        unfold ConnectionManager.disconnect
        rw [dictGet_dictDel_self]
      · have h1 : ConnectionManager.disconnect reg ws cid =
            dictSet reg cid (room.erase ws) := by
          unfold ConnectionManager.disconnect
          rw [hg]
          simp [he]
        rw [h1]
        apply disconnect_absent_noop
        · exact WF_dictSet reg cid (room.erase ws) h he
        · rw [dictGet_dictSet_self]
          simpa using hnotin
    · have h0 : ConnectionManager.disconnect reg ws cid = reg :=
        disconnect_absent_noop reg ws cid h (by rw [hg]; simpa using hmem)
      rw [h0, h0]

/-- In a well-formed registry a key is present iff its room is nonempty. -/
theorem registry_key_iff_nonempty (reg : Registry) (h : RegistryWF reg) (cid : Nat) :
    (dictGet reg cid).isSome = true ↔ ((dictGet reg cid).getD []) ≠ [] := by
  cases hg : dictGet reg cid with
  | none => simp
  | some room =>
    simp only [Option.isSome_some, Option.getD_some]
    exact iff_of_true (by trivial) (h.2 (cid, room) (dictGet_mem reg cid room hg))

/-- Folding erase over elements none of which equals the head skips the
head. -/
theorem foldl_erase_cons_of_ne (x : Nat) :
    ∀ (ds l : List Nat), (∀ d ∈ ds, d ≠ x) →
      ds.foldl List.erase (x :: l) = x :: ds.foldl List.erase l := by
  intro ds
  induction ds with
  | nil =>
    intro l h
    rfl
  | cons d ds ih =>
    intro l h
    have hd : d ≠ x := h d (by simp)
    simp only [List.foldl_cons]
    rw [List.erase_cons_tail (by simpa using fun hh => hd hh.symm)]
    exact ih (l.erase d) (fun e he => h e (by simp [he]))

/-- Erasing, one by one, every element failing a predicate leaves exactly the
elements satisfying it. -/
theorem foldl_erase_filter (p : Nat → Bool) :
    ∀ l : List Nat, (l.filter (fun x => !(p x))).foldl List.erase l = l.filter p := by
  intro l
  induction l with
  | nil => rfl
  | cons x xs ih =>
    by_cases hp : p x
    · rw [List.filter_cons_of_neg (by simp [hp]), List.filter_cons_of_pos hp,
        foldl_erase_cons_of_ne x (xs.filter fun c => !(p c)) xs ?_, ih]
      intro d hd
      have hpd := List.of_mem_filter hd
      intro hdx
      subst hdx
      simp [hp] at hpd
    · rw [List.filter_cons_of_pos (by simp [hp]), List.filter_cons_of_neg (by simpa using hp)]
      simp only [List.foldl_cons, List.erase_cons_head]
      exact ih

/-- The room under `cid` tracked through a fold of disconnects: it is the
fold of erases, with the key deleted exactly when the room empties. -/
theorem fold_disconnect_room (cid : Nat) :
    ∀ (ds : List Nat) (reg : Registry) (cur : List Nat),
      ((dictGet reg cid = some cur ∧ cur ≠ []) ∨
        (cur = [] ∧ dictGet reg cid = none)) →
      ((dictGet (ds.foldl (fun r c => ConnectionManager.disconnect r c cid) reg) cid =
            some (ds.foldl List.erase cur) ∧ ds.foldl List.erase cur ≠ []) ∨
        (ds.foldl List.erase cur = [] ∧
          dictGet (ds.foldl (fun r c => ConnectionManager.disconnect r c cid) reg) cid =
            none)) := by
  intro ds
  induction ds with
  | nil =>
    intro reg cur h
    rcases h with ⟨hg, hne⟩ | ⟨hnil, hg⟩
    · exact Or.inl ⟨hg, hne⟩
    · exact Or.inr ⟨hnil, hg⟩
  | cons d ds ih =>
    intro reg cur h
    simp only [List.foldl_cons]
    apply ih
    rcases h with ⟨hg, _⟩ | ⟨hnil, hg⟩
    · unfold ConnectionManager.disconnect
      rw [hg]
      by_cases he : cur.erase d = []
      · exact Or.inr ⟨he, by simp [he, dictGet_dictDel_self]⟩
      · exact Or.inl ⟨by simp [he, dictGet_dictSet_self], he⟩
    · have h0 : ConnectionManager.disconnect reg d cid = reg := by
        unfold ConnectionManager.disconnect
        rw [hg]
      rw [h0, hnil]
      exact Or.inr ⟨rfl, hg⟩

/-- Claim C4: broadcasting to a room attempts delivery to every registered
connection in registration order, delivers to exactly the connections whose
transport is healthy (one failure never blocks the others, and the call never
raises), and removes each failed connection from the room within the same
call. -/
theorem broadcast_spec (reg : Registry) (cid : Nat) (sendOk : Nat → Bool)
    (room : List Nat) (hwf : RegistryWF reg) (hget : dictGet reg cid = some room) :
    (ConnectionManager.broadcast reg cid sendOk).1 = room ∧
    (ConnectionManager.broadcast reg cid sendOk).2.1 = room.filter sendOk ∧
    ((dictGet (ConnectionManager.broadcast reg cid sendOk).2.2 cid).getD []) =
      room.filter sendOk ∧
    (∀ c ∈ room, sendOk c = false →
      c ∉ ((dictGet (ConnectionManager.broadcast reg cid sendOk).2.2 cid).getD [])) := by
  have hne : room ≠ [] := hwf.2 (cid, room) (dictGet_mem reg cid room hget)
  have hb : ConnectionManager.broadcast reg cid sendOk =
      (room, room.filter sendOk,
        (room.filter fun c => !(sendOk c)).foldl
          (fun r c => ConnectionManager.disconnect r c cid) reg) := by
    unfold ConnectionManager.broadcast
    rw [hget]
  have h := fold_disconnect_room cid (room.filter fun c => !(sendOk c)) reg room
    (Or.inl ⟨hget, hne⟩)
  rw [foldl_erase_filter sendOk room] at h
  have h3 : ((dictGet (ConnectionManager.broadcast reg cid sendOk).2.2 cid).getD []) =
      room.filter sendOk := by
    rw [hb]
    rcases h with ⟨hg, _⟩ | ⟨hnil, hg⟩
    · rw [hg]
      rfl
    · rw [hg, hnil]
      rfl
  refine ⟨by rw [hb], by rw [hb], h3, ?_⟩
  intro c hc hfail
  rw [h3]
  intro hmem
  have hp := List.of_mem_filter hmem
  rw [hfail] at hp
  exact Bool.false_ne_true hp

/-- Witness for `broadcast_spec` on a three-member room with one dead peer. -/
theorem broadcast_spec_witness :
    RegistryWF [(1, [2, 3, 4])] ∧
    dictGet [(1, [2, 3, 4])] 1 = some [2, 3, 4] ∧
    (ConnectionManager.broadcast [(1, [2, 3, 4])] 1 (fun c => c != 3)).1 =
      [2, 3, 4] :=
  ⟨⟨by decide, by decide⟩, rfl,
    (broadcast_spec [(1, [2, 3, 4])] 1 (fun c => c != 3) [2, 3, 4]
      ⟨by decide, by decide⟩ rfl).1⟩

/-- Claim C5 counterexample: connecting the same connection twice to the same
conversation leaves it registered twice, not once. -/
theorem connect_not_idempotent_counterexample :
    ((dictGet (ConnectionManager.connect (ConnectionManager.connect [] 5 1) 5 1)
        1).getD []).count 5 = 2 ∧
    ¬ ((dictGet (ConnectionManager.connect (ConnectionManager.connect [] 5 1) 5 1)
        1).getD []).count 5 = 1 := by
  decide

/-- Claim C5 amended: connect registers the connection by appending it to the
conversation room unconditionally, so calling connect twice with the same
connection and conversation id leaves the room containing that connection
twice (two more occurrences than before), not once. -/
theorem connect_appends (reg : Registry) (ws cid : Nat) :
    dictGet (ConnectionManager.connect reg ws cid) cid =
      some (((dictGet reg cid).getD []) ++ [ws]) ∧
    ((dictGet (ConnectionManager.connect (ConnectionManager.connect reg ws cid)
        ws cid) cid).getD []).count ws =
      ((dictGet reg cid).getD []).count ws + 2 := by
  have h1 : ∀ r : Registry, dictGet (ConnectionManager.connect r ws cid) cid =
      some (((dictGet r cid).getD []) ++ [ws]) := by
    intro r
    rw [connect_eq]
    exact dictGet_dictSet_self ..
  refine ⟨h1 reg, ?_⟩
  rw [h1 (ConnectionManager.connect reg ws cid), h1 reg]
  simp [List.count_append]

/-- Claim C6 counterexample: after connecting the same connection twice from
the empty registry (which the non-idempotent connect permits), disconnecting
twice does not equal disconnecting once. -/
theorem disconnect_not_idempotent_counterexample :
    ConnectionManager.disconnect (ConnectionManager.disconnect
        (applyCMOps [] [CMOp.connect 5 1, CMOp.connect 5 1]) 5 1) 5 1 ≠
      ConnectionManager.disconnect
        (applyCMOps [] [CMOp.connect 5 1, CMOp.connect 5 1]) 5 1 := by
  decide

/-- Claim C6 amended: after every operation sequence from the empty registry a
conversation key exists iff its room is nonempty (disconnect deletes emptied
rooms); disconnecting an absent connection is a no-op; and disconnecting
twice equals disconnecting once provided the connection is registered at most
once in the room (which double connect can violate). -/
theorem registry_room_invariant :
    (∀ (ops : List CMOp) (cid : Nat),
      (dictGet (applyCMOps [] ops) cid).isSome = true ↔
        ((dictGet (applyCMOps [] ops) cid).getD []) ≠ []) ∧
    (∀ (reg : Registry) (ws cid : Nat), RegistryWF reg →
      ws ∉ ((dictGet reg cid).getD []) →
      ConnectionManager.disconnect reg ws cid = reg) ∧
    (∀ (reg : Registry) (ws cid : Nat), RegistryWF reg →
      ((dictGet reg cid).getD []).count ws ≤ 1 →
      ConnectionManager.disconnect (ConnectionManager.disconnect reg ws cid) ws cid =
        ConnectionManager.disconnect reg ws cid) :=
  ⟨fun ops cid => registry_key_iff_nonempty (applyCMOps [] ops) (WF_applyCMOps ops) cid,
    fun reg ws cid h hws => disconnect_absent_noop reg ws cid h hws,
    fun reg ws cid h hcount => disconnect_twice_eq reg ws cid h hcount⟩

/-- Witness for `registry_room_invariant` at a concrete singleton room. -/
theorem registry_room_invariant_witness :
    RegistryWF [(1, [5])] ∧
    ((dictGet ([(1, [5])] : Registry) 1).getD []).count 5 ≤ 1 ∧
    ConnectionManager.disconnect (ConnectionManager.disconnect [(1, [5])] 5 1) 5 1 =
      ConnectionManager.disconnect [(1, [5])] 5 1 :=
  ⟨⟨by decide, by decide⟩, by decide,
    registry_room_invariant.2.2 [(1, [5])] 5 1 ⟨by decide, by decide⟩ (by decide)⟩

/-- dropWhile leaves a list whose head fails the predicate unchanged. -/
theorem dropWhile_of_head_false {α : Type} (p : α → Bool) (l : List α)
    (h : ∀ c, l.head? = some c → p c = false) : l.dropWhile p = l := by
  cases l with
  | nil => rfl
  | cons x xs =>
    rw [List.dropWhile_cons, if_neg]
    rw [h x rfl]
    simp

/-- The last element survives dropWhile when the result is nonempty. -/
theorem getLast?_dropWhile {α : Type} (p : α → Bool) (l : List α)
    (h : l.dropWhile p ≠ []) : (l.dropWhile p).getLast? = l.getLast? := by
  induction l with
  | nil => simp at h
  | cons x xs ih =>
    rw [List.dropWhile_cons] at h ⊢
    by_cases hp : p x
    · simp only [hp, if_true] at h ⊢
      have hxs : xs ≠ [] := by
        intro hh
        subst hh
        simp [List.dropWhile] at h
      rw [ih h]
      cases xs with
      | nil => exact absurd rfl hxs
      | cons y ys => rw [List.getLast?_cons_cons]
    · rw [if_neg hp]

/-- Stripping from both ends is idempotent (on the underlying lists). -/
theorem stripDrop_idem {α : Type} (p : α → Bool) (l : List α) :
    (((((l.dropWhile p).reverse.dropWhile p).reverse).dropWhile p).reverse.dropWhile p).reverse =
      ((l.dropWhile p).reverse.dropWhile p).reverse := by
  set r := (l.dropWhile p).reverse.dropWhile p with hr
  by_cases hrnil : r = []
  · rw [hrnil]
    simp
  · have hd1 : ∀ c, (l.dropWhile p).head? = some c → p c = false := by
      intro c hc
      have hh := List.head?_dropWhile_not p l
      rw [hc] at hh
      exact hh
    have hd2 : ∀ c, r.head? = some c → p c = false := by
      intro c hc
      have hh := List.head?_dropWhile_not p (l.dropWhile p).reverse
      rw [← hr, hc] at hh
      exact hh
    have hlast : r.getLast? = (l.dropWhile p).head? := by
      rw [hr, getLast?_dropWhile p (l.dropWhile p).reverse hrnil, List.getLast?_reverse]
    have hrev : ∀ c, r.reverse.head? = some c → p c = false := by
      intro c hc
      rw [List.head?_reverse, hlast] at hc
      exact hd1 c hc
    rw [dropWhile_of_head_false p r.reverse hrev, List.reverse_reverse,
      dropWhile_of_head_false p r hd2]

/-- Python strip is idempotent. -/
theorem pyStrip_idem (s : String) : pyStrip (pyStrip s) = pyStrip s := by
  unfold pyStrip
  exact congrArg String.mk (stripDrop_idem Char.isWhitespace s.data)

/-- A string of length zero is the empty string. -/
theorem string_length_zero {s : String} (h : s.length = 0) : s = "" := by
  cases s with
  | mk data =>
    cases data with
    | nil => rfl
    | cons c cs => simp [String.length] at h

/-- Claim C7: on a frame whose content is empty after stripping (or absent),
one loop iteration sends a single error frame to the sender only, persists
nothing, broadcasts nothing, leaves the registry (hence the connection)
untouched, and returns so that the receive loop continues; on non-empty
stripped content the iteration persists the message with its store-assigned
id and broadcasts exactly that persisted message. -/
theorem chat_loop_frame_spec (store : List Msg) (reg : Registry) (ws cid uid : Nat)
    (adm : Bool) (content? : Option String) (sendOk : Nat → Bool)
    (n : Except String Unit) :
    (pyStrip (content?.getD "") = "" →
      chatIteration store reg ws cid uid adm content? sendOk n =
        (store, reg,
          [ChatEvent.personal ws (Frame.error "Message content cannot be empty")],
          [])) ∧
    (pyStrip (content?.getD "") ≠ "" →
      chatIteration store reg ws cid uid adm content? sendOk n =
        (store ++ [savedMsg store cid uid adm content?],
          (ConnectionManager.broadcast reg cid sendOk).2.2,
          [ChatEvent.broadcastDelivery
            (ConnectionManager.broadcast reg cid sendOk).2.1
            (Frame.message (savedMsg store cid uid adm content?).message_id cid
              (savedMsg store cid uid adm content?).sender_id
              (savedMsg store cid uid adm content?).sender_type
              (savedMsg store cid uid adm content?).content)],
          if adm then tryLog n else [])) := by
  constructor
  · intro ht
    simp [chatIteration, ht]
  · intro ht
    have hmem : (if adm then "admin" else "user") ∈ Msg.VALID_SENDER_TYPES := by
      cases adm <;> simp [Msg.VALID_SENDER_TYPES]
    have hlen : ¬ (pyStrip (content?.getD "") = "" ∨
        (pyStrip (pyStrip (content?.getD ""))).length = 0) := by
      push_neg
      refine ⟨ht, ?_⟩
      rw [pyStrip_idem]
      intro h0
      exact ht (string_length_zero h0)
    have hcreate : Msg.create cid uid (if adm then "admin" else "user")
        (pyStrip (content?.getD "")) =
        Except.ok
          ({ message_id := none, conversation_id := cid, sender_id := uid,
             sender_type := if adm then "admin" else "user",
             content := pyStrip (pyStrip (content?.getD "")) } : Msg) := by
      unfold Msg.create
      rw [if_neg (by simpa using hmem), if_neg hlen]
    simp [chatIteration, ht, hcreate, addMessage, savedMsg, pyStrip_idem]

/-- Witness for `chat_loop_frame_spec` on a concrete non-empty frame. -/
theorem chat_loop_frame_spec_witness :
    pyStrip ((some " hello ").getD "") ≠ "" ∧
    (chatIteration [] [(1, [7])] 7 1 2 false (some " hello ") (fun _ => true)
        (Except.ok ())).1 = [savedMsg [] 1 2 false (some " hello ")] :=
  ⟨by decide, by
    have h := (chat_loop_frame_spec [] [(1, [7])] 7 1 2 false (some " hello ")
        (fun _ => true) (Except.ok ())).2 (by decide)
    rw [h]
    rfl⟩
